import Mathlib

/-!
Verification of the F5-TTS voice-cloning orchestration (`src/voice_clone.py`).

The Python module is shallowly embedded here:

* Filesystem and the external F5-TTS service are opaque collaborators,
  modelled by an `Env` record of functions (`os.path.exists`,
  `Path(...).read_text()`, the current working directory used by
  `os.path.abspath`, and `F5TTS.infer`).
* Side effects (model construction, `os.makedirs`, `infer` calls, the audio
  file written by the service) are recorded as an ordered trace of `Event`s.
* Python floats that are pure pass-through tuning knobs (`speed`,
  `cfg_strength`) and the derived duration are modelled as exact rationals;
  no claim computes with them.
* `os.path` functions (`abspath`, `normpath`, `join`) are translated from
  CPython's `posixpath`, restricted to the POSIX separator `/`.
* Python string helpers (`str.strip`, `str.splitlines`) are translated for
  the ASCII whitespace and line-boundary characters; the exotic Unicode
  boundary characters Python also accepts are outside the model.
-/

namespace VoiceClone

/-! ### posixpath model (`os.path.exists` stays abstract; these are pure) -/

/-- Split a character list at every occurrence of `c` (CPython `str.split(sep)`
with a one-character separator, on the underlying characters). -/
def splitOnChar (c : Char) : List Char → List (List Char)
  | [] => [[]]
  | x :: xs =>
    match splitOnChar c xs with
    | [] => [[]]
    | h :: t => if x = c then [] :: h :: t else (x :: h) :: t

/-- Join components with `/` (CPython `'/'.join(comps)`). -/
def joinSlash : List String → String
  | [] => ""
  | [x] => x
  | x :: y :: xs => x ++ "/" ++ joinSlash (y :: xs)

/-- CPython `posixpath.isabs`: the path starts with `/`. -/
def isAbs (p : String) : Bool :=
  match p.data with
  | [] => false
  | c :: _ => c == '/'

/-- The path starts with exactly `//` (not `///`), the POSIX special case kept
by `normpath`. -/
def startsTwoSlash (p : String) : Bool :=
  match p.data with
  | '/' :: '/' :: '/' :: _ => false
  | '/' :: '/' :: _ => true
  | _ => false

/-- The path ends with `/`. -/
def endsWithSlash (p : String) : Bool :=
  match p.data.getLast? with
  | some c => c == '/'
  | none => false

/-- CPython `posixpath.join` for two components. -/
def pyJoin (a b : String) : String :=
  if isAbs b then b
  else if a = "" ∨ endsWithSlash a = true then a ++ b
  else a ++ "/" ++ b

/-- CPython `posixpath.normpath`: collapse `//`, drop `.`, resolve `..`
against preceding components, preserving a leading `//` exactly. -/
def normpath (p : String) : String :=
  if p = "" then "." else
  let slashes : Nat := if startsTwoSlash p then 2 else if isAbs p then 1 else 0
  let comps := (splitOnChar '/' p.data).map String.mk
  let newComps := comps.foldl (fun acc comp =>
    if comp = "" ∨ comp = "." then acc
    else if comp ≠ ".." ∨ (slashes = 0 ∧ acc = []) ∨ acc.getLast? = some ".." then
      acc ++ [comp]
    else acc.dropLast) ([] : List String)
  let res := String.mk (List.replicate slashes '/') ++ joinSlash newComps
  if res = "" then "." else res

/-- CPython `posixpath.abspath` relative to a current working directory:
`normpath(path if isabs(path) else join(cwd, path))`. -/
def abspath (cwd p : String) : String :=
  if isAbs p then normpath p else normpath (pyJoin cwd p)

/-! ### Python string helpers used by `clone_voice_batch` -/

/-- ASCII whitespace stripped by Python `str.strip()`. -/
def pyWhitespace (c : Char) : Bool :=
  c == ' ' || c == '\t' || c == '\n' || c == '\r' || c == '\x0b' || c == '\x0c'

/-- Python `str.strip()` with no argument: remove leading and trailing
whitespace. -/
def strip (s : String) : String :=
  String.mk (((s.data.dropWhile pyWhitespace).reverse.dropWhile pyWhitespace).reverse)

/-- Worker for `pySplitlines`: `acc` holds the current line reversed. -/
def splitlinesGo (acc : List Char) : List Char → List (List Char)
  | [] => [acc.reverse]
  | '\r' :: '\n' :: rest => acc.reverse :: (if rest = [] then [] else splitlinesGo [] rest)
  | '\r' :: rest => acc.reverse :: (if rest = [] then [] else splitlinesGo [] rest)
  | '\n' :: rest => acc.reverse :: (if rest = [] then [] else splitlinesGo [] rest)
  | c :: rest => splitlinesGo (c :: acc) rest

/-- Python `str.splitlines()` for the line boundaries `\n`, `\r`, `\r\n`:
a trailing boundary does not open a final empty line, and the empty string
has no lines. -/
def pySplitlines (s : String) : List String :=
  if s.data = [] then [] else (splitlinesGo [] s.data).map String.mk

/-- Line 91 of `voice_clone.py`:
`[line.strip() for line in Path(text_file).read_text().splitlines() if line.strip()]`
applied to the already-read text. -/
def batchLines (text : String) : List String :=
  ((pySplitlines text).map strip).filter (fun l => l != "")

/-! ### Data model: requests, results, events, environment -/

/-- Python `f"{i:03d}"`: the decimal representation of `i`, left-padded with
zeros to at least three characters. -/
def fmt3 (i : Nat) : String :=
  let s := Nat.repr i
  String.mk (List.replicate (3 - s.length) '0') ++ s

/-- Line 104 of `voice_clone.py`: the batch clip filename `clip_{i:03d}.wav`. -/
def clipName (i : Nat) : String := "clip_" ++ fmt3 i ++ ".wav"

/-- The keyword arguments of one `tts.infer(...)` call. -/
structure InferArgs where
  ref_file : String
  ref_text : String
  gen_text : String
  file_wave : String
  speed : ℚ
  nfe_step : Int
  cfg_strength : ℚ
deriving DecidableEq, Repr

/-- The parts of the `(wav, sr, _)` return value of `tts.infer` that the
orchestration observes: `len(wav)` and the sample rate. -/
structure InferRes where
  wavLen : Nat
  sr : Int
deriving DecidableEq, Repr

/-- Observable side effects of one invocation, in program order.  The `handle`
of `modelLoad`/`inferCall` identifies the `F5TTS` instance: the orchestration
constructs at most one per invocation, numbered 0. -/
inductive Event where
  | modelLoad (handle : Nat) (model : String)
  | mkdirs (dir : String)
  | inferCall (handle : Nat) (args : InferArgs)
  | fileWrite (path : String)
deriving DecidableEq, Repr

/-- Errors that reach the process boundary: `FileNotFoundError` raised by the
orchestration itself (line 53), or any exception escaping the external
synthesis service. -/
inductive Err where
  | referenceNotFound (path : String)
  | synthesisFailure
deriving DecidableEq, Repr

/-- The ambient world: filesystem existence, the current working directory
(used by `os.path.abspath`), text-file contents, and the external
`F5TTS.infer` service (`none` models the service raising). -/
structure Env where
  fsExists : String → Bool
  cwd : String
  readText : String → String
  infer : InferArgs → Option InferRes

/-- Line 74 of `voice_clone.py`: `duration = len(wav) / sr if sr > 0 else 0`,
with Python float division modelled as exact rational division. -/
def durationOf (wavLen : Nat) (sr : Int) : ℚ :=
  if 0 < sr then (wavLen : ℚ) / (sr : ℚ) else 0

/-- The value `clone_voice` returns plus the duration it computes and reports
(lines 73-77): the absolute output path and the guarded audio duration. -/
structure CloneResult where
  outputPath : String
  duration : ℚ
deriving DecidableEq, Repr

/-! ### The orchestration functions (translated from `voice_clone.py`) -/

/-- `clone_voice` (lines 23-77): check the reference exists, resolve the
output path to an absolute path, load the model, call `tts.infer` once (the
service writes `file_wave`), and return the output path with the computed
duration. -/
def clone_voice (env : Env) (ref_audio gen_text output_path model : String)
    (speed : ℚ) (ref_text : String) (nfe_step : Int) (cfg_strength : ℚ) :
    Except Err CloneResult × List Event :=
  if env.fsExists ref_audio = false then
    (Except.error (Err.referenceNotFound ref_audio), [])
  else
    let out := abspath env.cwd output_path
    let args : InferArgs := ⟨ref_audio, ref_text, gen_text, out, speed, nfe_step, cfg_strength⟩
    match env.infer args with
    | none => (Except.error Err.synthesisFailure,
        [Event.modelLoad 0 model, Event.inferCall 0 args])
    | some res =>
      (Except.ok ⟨out, durationOf res.wavLen res.sr⟩,
       [Event.modelLoad 0 model, Event.inferCall 0 args, Event.fileWrite out])

/-- The `for i, line in enumerate(lines, 1)` loop of `clone_voice_batch`
(lines 103-118): one `tts.infer` per line with output `clip_{i:03d}.wav`
under `output_dir`; an exception aborts the remaining batch. -/
def batchLoop (env : Env) (ref_audio ref_text : String) (speed : ℚ) (nfe_step : Int)
    (cfg_strength : ℚ) (output_dir : String) :
    Nat → List String → Except Err (List String) × List Event
  | _, [] => (Except.ok [], [])
  | i, line :: rest =>
    let out_path := pyJoin output_dir (clipName i)
    let args : InferArgs := ⟨ref_audio, ref_text, line, out_path, speed, nfe_step, cfg_strength⟩
    match env.infer args with
    | none => (Except.error Err.synthesisFailure, [Event.inferCall 0 args])
    | some _ =>
      let r := batchLoop env ref_audio ref_text speed nfe_step cfg_strength output_dir (i+1) rest
      (match r.1 with
       | Except.ok outs => Except.ok (out_path :: outs)
       | Except.error e => Except.error e,
       Event.inferCall 0 args :: Event.fileWrite out_path :: r.2)

/-- `clone_voice_batch` (lines 80-121): read the text file, keep stripped
non-empty lines; on no lines return `[]` before any directory creation or
model load; otherwise resolve the output directory, create it, load the model
once, and run the loop.  Note: unlike `clone_voice`, no reference-existence
check is performed here. -/
def clone_voice_batch (env : Env) (ref_audio text_file output_dir model : String)
    (speed : ℚ) (ref_text : String) (nfe_step : Int) (cfg_strength : ℚ) :
    Except Err (List String) × List Event :=
  let lines := batchLines (env.readText text_file)
  if lines = [] then (Except.ok [], [])
  else
    let outDir := abspath env.cwd output_dir
    let r := batchLoop env ref_audio ref_text speed nfe_step cfg_strength outDir 1 lines
    (r.1, Event.mkdirs outDir :: Event.modelLoad 0 model :: r.2)

/-- The parsed CLI arguments of `main` (lines 124-147), with Python
`Optional[str]` as `Option String`. -/
structure Args where
  ref_audio : String
  text : Option String
  text_file : Option String
  ref_text : String
  output : String
  output_dir : String
  model : String
  speed : ℚ
  nfe_step : Int
  cfg_strength : ℚ

/-- Python truthiness of an `Optional[str]`: `None` and `""` are falsy. -/
def truthy : Option String → Bool
  | none => false
  | some s => s != ""

/-- Process exit status of a run that ended with this value: 0 on normal
return, 1 on an uncaught exception. -/
def exitCode {α : Type} : Except Err α → Nat
  | Except.ok _ => 0
  | Except.error _ => 1

/-- `main` (lines 124-168) after argument parsing: `parser.error` (exit
status 2, usage message, nothing run) when neither `--text` nor `--text_file`
is truthy; dispatch to batch mode when `--text_file` is truthy, else to
single mode.  Returns the exit status and the event trace. -/
def main (env : Env) (a : Args) : Nat × List Event :=
  if !truthy a.text && !truthy a.text_file then
    (2, [])
  else if truthy a.text_file then
    let r := clone_voice_batch env a.ref_audio (a.text_file.getD "") a.output_dir a.model
      a.speed a.ref_text a.nfe_step a.cfg_strength
    (exitCode r.1, r.2)
  else
    let r := clone_voice env a.ref_audio (a.text.getD "") a.output a.model
      a.speed a.ref_text a.nfe_step a.cfg_strength
    (exitCode r.1, r.2)

/-- The `(gen_text, file_wave)` pairs of the `inferCall` events of a trace,
in order. -/
def inferPairs (evs : List Event) : List (String × String) :=
  evs.filterMap (fun e =>
    match e with
    | Event.inferCall _ a => some (a.gen_text, a.file_wave)
    | _ => none)

/-- Whether an event is a model load. -/
def isModelLoad : Event → Bool
  | Event.modelLoad _ _ => true
  | _ => false

/-! ### Helper lemmas: lexicographic facts about `clip_{i:03d}.wav` names -/

set_option maxRecDepth 4000 in
theorem fmt3_succ_lex : ∀ k, k < 998 → List.Lex (· < ·) (fmt3 (k+1)).data (fmt3 (k+2)).data := by
  decide

set_option maxRecDepth 4000 in
theorem fmt3_len3 : ∀ i, i < 1000 → (fmt3 i).data.length = 3 := by decide

theorem fmt3_succ_lt : ∀ k, k < 998 → fmt3 (k+1) < fmt3 (k+2) := by
  intro k hk
  rw [String.lt_iff_toList_lt]
  exact fmt3_succ_lex k hk

theorem fmt3_lt : ∀ {i j : Nat}, 1 ≤ i → i < j → j ≤ 999 → fmt3 i < fmt3 j := by
  intro i j h1 hij h2
  induction j with
  | zero => omega
  | succ n ih =>
    rcases Nat.lt_or_ge i n with h | h
    · have hn : fmt3 n < fmt3 (n+1) := by
        have hs := fmt3_succ_lt (n-1) (by omega)
        have hn1 : n - 1 + 1 = n := by omega
        have hn2 : n - 1 + 2 = n + 1 := by omega
        rwa [hn1, hn2] at hs
      exact lt_trans (ih h (by omega)) hn
    · have hin : i = n := by omega
      subst hin
      have hs := fmt3_succ_lt (i-1) (by omega)
      have hn1 : i - 1 + 1 = i := by omega
      have hn2 : i - 1 + 2 = i + 1 := by omega
      rwa [hn1, hn2] at hs

theorem lex_append_left {r : Char → Char → Prop} (p : List Char) {l₁ l₂ : List Char}
    (h : List.Lex r l₁ l₂) : List.Lex r (p ++ l₁) (p ++ l₂) := by
  induction p with
  | nil => exact h
  | cons c p ih => exact List.Lex.cons ih

theorem lex_append_pad {r : Char → Char → Prop} {l₁ l₂ : List Char} (s t : List Char)
    (hlen : l₁.length = l₂.length) (h : List.Lex r l₁ l₂) : List.Lex r (l₁ ++ s) (l₂ ++ t) := by
  induction h with
  | nil => simp at hlen
  | @cons a m₁ m₂ h ih => exact List.Lex.cons (ih (by simpa using hlen))
  | rel h => exact List.Lex.rel h

theorem clip_path_lt (pre : String) {i j : Nat} (h1 : 1 ≤ i) (hij : i < j) (h2 : j ≤ 999) :
    pre ++ clipName i < pre ++ clipName j := by
  rw [String.lt_iff_toList_lt]
  show List.Lex (· < ·) (pre ++ clipName i).data (pre ++ clipName j).data
  have hd : ∀ k : Nat, (pre ++ clipName k).data
      = (pre.data ++ "clip_".data) ++ ((fmt3 k).data ++ ".wav".data) := by
    intro k
    simp [clipName, String.data_append, List.append_assoc]
  rw [hd i, hd j]
  apply lex_append_left
  apply lex_append_pad
  · have hi := fmt3_len3 i (by omega)
    have hj := fmt3_len3 j (by omega)
    omega
  · have h3 := fmt3_lt h1 hij h2
    rw [String.lt_iff_toList_lt] at h3
    exact h3

/-- The directory part that `posixpath.join` prepends to a relative name. -/
def joinPre (d : String) : String :=
  if d = "" ∨ endsWithSlash d = true then d else d ++ "/"

theorem isAbs_clipName (i : Nat) : isAbs (clipName i) = false := by
  have h : (clipName i).data = 'c' :: ("lip_".data ++ ((fmt3 i).data ++ ".wav".data)) := by
    simp [clipName, String.data_append, List.append_assoc]
  unfold isAbs
  rw [h]
  rfl

theorem pyJoin_clip (d : String) (i : Nat) : pyJoin d (clipName i) = joinPre d ++ clipName i := by
  unfold pyJoin joinPre
  rw [isAbs_clipName]
  simp only [Bool.false_eq_true, if_false]
  split
  · rfl
  · rw [String.append_assoc]

theorem clip_full_lt (d : String) {i j : Nat} (h1 : 1 ≤ i) (hij : i < j) (h2 : j ≤ 999) :
    pyJoin d (clipName i) < pyJoin d (clipName j) := by
  rw [pyJoin_clip, pyJoin_clip]
  exact clip_path_lt (joinPre d) h1 hij h2

/-! ### Helper lemmas: the batch loop -/

theorem batchLoop_fst (env : Env) (ra rt : String) (sp : ℚ) (nfe : Int) (cfg : ℚ) (d : String)
    (hinf : ∀ a, env.infer a ≠ none) :
    ∀ (lines : List String) (i : Nat),
      (batchLoop env ra rt sp nfe cfg d i lines).1
        = Except.ok ((List.range' i lines.length).map (fun m => pyJoin d (clipName m))) := by
  intro lines
  induction lines with
  | nil => intro i; rfl
  | cons line rest ih =>
    intro i
    cases h : env.infer ⟨ra, rt, line, pyJoin d (clipName i), sp, nfe, cfg⟩ with
    | none => exact absurd h (hinf _)
    | some res =>
      simp [batchLoop, h, ih (i+1), List.range'_succ]

theorem batchLoop_pairs (env : Env) (ra rt : String) (sp : ℚ) (nfe : Int) (cfg : ℚ) (d : String)
    (hinf : ∀ a, env.infer a ≠ none) :
    ∀ (lines : List String) (i : Nat),
      inferPairs (batchLoop env ra rt sp nfe cfg d i lines).2
        = lines.zip ((List.range' i lines.length).map (fun m => pyJoin d (clipName m))) := by
  intro lines
  induction lines with
  | nil => intro i; rfl
  | cons line rest ih =>
    intro i
    cases h : env.infer ⟨ra, rt, line, pyJoin d (clipName i), sp, nfe, cfg⟩ with
    | none => exact absurd h (hinf _)
    | some res =>
      have ih2 := ih (i+1)
      simp only [inferPairs] at ih2
      simp [batchLoop, h, inferPairs, ih2, List.range'_succ]

theorem batchLoop_events (env : Env) (ra rt : String) (sp : ℚ) (nfe : Int) (cfg : ℚ) (d : String) :
    ∀ (lines : List String) (i : Nat) (e : Event),
      e ∈ (batchLoop env ra rt sp nfe cfg d i lines).2 →
      (∃ a, e = Event.inferCall 0 a ∧ a.ref_file = ra ∧ a.ref_text = rt ∧
        ∃ m, a.file_wave = pyJoin d (clipName m)) ∨
      ∃ p, e = Event.fileWrite p := by
  intro lines
  induction lines with
  | nil =>
    intro i e he
    simp [batchLoop] at he
  | cons line rest ih =>
    intro i e he
    cases h : env.infer ⟨ra, rt, line, pyJoin d (clipName i), sp, nfe, cfg⟩ with
    | none =>
      simp [batchLoop, h] at he
      subst he
      exact Or.inl ⟨_, rfl, rfl, rfl, i, rfl⟩
    | some res =>
      simp [batchLoop, h] at he
      rcases he with he | he | he
      · subst he
        exact Or.inl ⟨_, rfl, rfl, rfl, i, rfl⟩
      · subst he
        exact Or.inr ⟨_, rfl⟩
      · exact ih (i+1) e he

theorem clone_voice_batch_eq (env : Env) (ra tf od model : String) (sp : ℚ) (rt : String)
    (nfe : Int) (cfg : ℚ) (hne : batchLines (env.readText tf) ≠ []) :
    clone_voice_batch env ra tf od model sp rt nfe cfg
      = ((batchLoop env ra rt sp nfe cfg (abspath env.cwd od) 1 (batchLines (env.readText tf))).1,
         Event.mkdirs (abspath env.cwd od) :: Event.modelLoad 0 model ::
           (batchLoop env ra rt sp nfe cfg (abspath env.cwd od) 1
             (batchLines (env.readText tf))).2) := by
  simp [clone_voice_batch, hne]

/-! ### Claim C1 -/

/-- C1, counterexample to the claim as stated.  The claim says every
invocation, single or batch, with a non-existent reference audio path fails
with `ReferenceNotFound` before any model load.  In batch mode the code never
checks the reference: with a filesystem on which no path exists, a one-line
batch still loads the model, and the failure that surfaces (from the external
service) is not `ReferenceNotFound`. -/
theorem batch_missing_reference_loads_model :
    (clone_voice_batch ⟨fun _ => false, "/w", fun _ => "Hello", fun _ => none⟩
        "missing.wav" "script.txt" "outputs" "F5TTS_v1_Base" 1 "" 32 2).1
      = Except.error Err.synthesisFailure ∧
    (Except.error Err.synthesisFailure : Except Err (List String))
      ≠ Except.error (Err.referenceNotFound "missing.wav") ∧
    Event.modelLoad 0 "F5TTS_v1_Base" ∈
      (clone_voice_batch ⟨fun _ => false, "/w", fun _ => "Hello", fun _ => none⟩
        "missing.wav" "script.txt" "outputs" "F5TTS_v1_Base" 1 "" 32 2).2 :=
  ⟨rfl, by simp, by decide⟩

/-- C1 (amended): for every SINGLE-mode invocation whose reference audio path
does not exist, the run fails with `ReferenceNotFound` and exit status 1 (≠ 0)
with an empty event trace — so before any model load and with no output file
produced.  (Batch mode performs no such pre-load check; see the
counterexample.) -/
theorem single_missing_reference_fails_fast (env : Env) (a : Args)
    (href : env.fsExists a.ref_audio = false)
    (ht : truthy a.text = true) (htf : truthy a.text_file = false) :
    main env a = (1, []) ∧
    clone_voice env a.ref_audio (a.text.getD "") a.output a.model a.speed a.ref_text
        a.nfe_step a.cfg_strength
      = (Except.error (Err.referenceNotFound a.ref_audio), []) := by
  have hc : clone_voice env a.ref_audio (a.text.getD "") a.output a.model a.speed a.ref_text
      a.nfe_step a.cfg_strength
      = (Except.error (Err.referenceNotFound a.ref_audio), []) := by
    simp [clone_voice, href]
  refine ⟨?_, hc⟩
  simp [main, ht, htf, hc, exitCode]

/-- C1, witness for the amended theorem at a concrete input. -/
theorem single_missing_reference_fails_fast_witness :
    main ⟨fun _ => false, "/w", fun _ => "", fun _ => none⟩
        ⟨"missing.wav", some "Hello", none, "", "output.wav", "outputs", "F5TTS_v1_Base", 1, 32, 2⟩
      = (1, []) ∧
    clone_voice ⟨fun _ => false, "/w", fun _ => "", fun _ => none⟩
        "missing.wav" "Hello" "output.wav" "F5TTS_v1_Base" 1 "" 32 2
      = (Except.error (Err.referenceNotFound "missing.wav"), []) :=
  single_missing_reference_fails_fast
    ⟨fun _ => false, "/w", fun _ => "", fun _ => none⟩
    ⟨"missing.wav", some "Hello", none, "", "output.wav", "outputs", "F5TTS_v1_Base", 1, 32, 2⟩
    rfl (by decide) rfl

/-! ### Claim C2 -/

/-- C2: a batch invocation whose text source has only blank or
whitespace-only lines (or is empty) returns an empty list with an empty event
trace — no model load, no directory creation, no file writes — and the
process exits with status 0. -/
theorem empty_batch_source_no_op (env : Env) (a : Args) (htf : truthy a.text_file = true)
    (h : batchLines (env.readText (a.text_file.getD "")) = []) :
    clone_voice_batch env a.ref_audio (a.text_file.getD "") a.output_dir a.model a.speed
        a.ref_text a.nfe_step a.cfg_strength = (Except.ok [], []) ∧
    main env a = (0, []) := by
  have hb : clone_voice_batch env a.ref_audio (a.text_file.getD "") a.output_dir a.model a.speed
      a.ref_text a.nfe_step a.cfg_strength = (Except.ok [], []) := by
    simp [clone_voice_batch, h]
  refine ⟨hb, ?_⟩
  simp [main, htf, hb, exitCode]

/-- C2, witness at a concrete whitespace-only source. -/
theorem empty_batch_source_no_op_witness :
    batchLines "  \n\t\n" = [] ∧
    (clone_voice_batch ⟨fun _ => true, "/w", fun _ => "  \n\t\n", fun _ => none⟩
        "ref.wav" "script.txt" "outputs" "F5TTS_v1_Base" 1 "" 32 2 = (Except.ok [], []) ∧
     main ⟨fun _ => true, "/w", fun _ => "  \n\t\n", fun _ => none⟩
        ⟨"ref.wav", none, some "script.txt", "", "output.wav", "outputs", "F5TTS_v1_Base", 1, 32, 2⟩
       = (0, [])) :=
  ⟨by decide,
   empty_batch_source_no_op ⟨fun _ => true, "/w", fun _ => "  \n\t\n", fun _ => none⟩
     ⟨"ref.wav", none, some "script.txt", "", "output.wav", "outputs", "F5TTS_v1_Base", 1, 32, 2⟩
     (by decide) (by decide)⟩

/-! ### Claim C3 -/

/-- C3: for a batch of N non-blank lines (1 ≤ N ≤ 999) that the service
synthesizes successfully, `clone_voice_batch` returns exactly the paths
`output_dir/clip_001.wav … clip_{N:03d}.wav` in input order; the i-th line's
`inferCall` targets the i-th of these paths (the `zip` conjunct); and the
path list is strictly increasing in lexicographic order — hence pairwise
distinct. -/
theorem batch_output_naming (env : Env) (ra tf od model : String) (sp : ℚ) (rt : String)
    (nfe : Int) (cfg : ℚ)
    (hinf : ∀ a, env.infer a ≠ none)
    (hne : batchLines (env.readText tf) ≠ [])
    (hlen : (batchLines (env.readText tf)).length ≤ 999) :
    (clone_voice_batch env ra tf od model sp rt nfe cfg).1
      = Except.ok ((List.range' 1 (batchLines (env.readText tf)).length).map
          (fun m => pyJoin (abspath env.cwd od) (clipName m))) ∧
    inferPairs (clone_voice_batch env ra tf od model sp rt nfe cfg).2
      = (batchLines (env.readText tf)).zip
          ((List.range' 1 (batchLines (env.readText tf)).length).map
            (fun m => pyJoin (abspath env.cwd od) (clipName m))) ∧
    ((List.range' 1 (batchLines (env.readText tf)).length).map
        (fun m => pyJoin (abspath env.cwd od) (clipName m))).Pairwise (· < ·) ∧
    ((List.range' 1 (batchLines (env.readText tf)).length).map
        (fun m => pyJoin (abspath env.cwd od) (clipName m))).Nodup := by
  have hpair := clone_voice_batch_eq env ra tf od model sp rt nfe cfg hne
  have hlt : ((List.range' 1 (batchLines (env.readText tf)).length).map
      (fun m => pyJoin (abspath env.cwd od) (clipName m))).Pairwise (· < ·) := by
    refine List.pairwise_map.mpr ?_
    refine (List.pairwise_lt_range' 1 (batchLines (env.readText tf)).length 1
      (by norm_num)).imp_of_mem ?_
    intro a b ha hb hab
    have ha2 := List.mem_range'_1.mp ha
    have hb2 := List.mem_range'_1.mp hb
    exact clip_full_lt (abspath env.cwd od) (by omega) hab (by omega)
  refine ⟨?_, ?_, hlt, List.Pairwise.imp (fun h => ne_of_lt h) hlt⟩
  · rw [hpair]
    exact batchLoop_fst env ra rt sp nfe cfg (abspath env.cwd od) hinf
      (batchLines (env.readText tf)) 1
  · rw [hpair]
    have hp := batchLoop_pairs env ra rt sp nfe cfg (abspath env.cwd od) hinf
      (batchLines (env.readText tf)) 1
    simpa [inferPairs] using hp

/-- C3, witness: a two-line batch produces `clip_001.wav` and `clip_002.wav`
under the resolved output directory, in order, distinct and sorted. -/
theorem batch_output_naming_witness :
    batchLines "Hello\nWorld" ≠ [] ∧
    (batchLines "Hello\nWorld").length ≤ 999 ∧
    (clone_voice_batch ⟨fun _ => true, "/w", fun _ => "Hello\nWorld", fun _ => some ⟨10, 5⟩⟩
        "ref.wav" "script.txt" "outputs" "F5TTS_v1_Base" 1 "" 32 2).1
      = Except.ok ["/w/outputs/clip_001.wav", "/w/outputs/clip_002.wav"] ∧
    inferPairs (clone_voice_batch ⟨fun _ => true, "/w", fun _ => "Hello\nWorld",
          fun _ => some ⟨10, 5⟩⟩
        "ref.wav" "script.txt" "outputs" "F5TTS_v1_Base" 1 "" 32 2).2
      = [("Hello", "/w/outputs/clip_001.wav"), ("World", "/w/outputs/clip_002.wav")] ∧
    (["/w/outputs/clip_001.wav", "/w/outputs/clip_002.wav"] : List String).Nodup :=
  ⟨by decide, by decide,
   (batch_output_naming ⟨fun _ => true, "/w", fun _ => "Hello\nWorld", fun _ => some ⟨10, 5⟩⟩
      "ref.wav" "script.txt" "outputs" "F5TTS_v1_Base" 1 "" 32 2
      (fun _ h => Option.noConfusion h) (by decide) (by decide)).1,
   (batch_output_naming ⟨fun _ => true, "/w", fun _ => "Hello\nWorld", fun _ => some ⟨10, 5⟩⟩
      "ref.wav" "script.txt" "outputs" "F5TTS_v1_Base" 1 "" 32 2
      (fun _ h => Option.noConfusion h) (by decide) (by decide)).2.1,
   (batch_output_naming ⟨fun _ => true, "/w", fun _ => "Hello\nWorld", fun _ => some ⟨10, 5⟩⟩
      "ref.wav" "script.txt" "outputs" "F5TTS_v1_Base" 1 "" 32 2
      (fun _ h => Option.noConfusion h) (by decide) (by decide)).2.2.2⟩

/-! ### Claim C4 -/

/-- C4: the batch job consists of exactly the whitespace-stripped non-empty
lines of the source in original order (the filter/map-commuted form makes
"exactly the non-blank lines, each stripped" explicit); the spec's example
source yields exactly `"Hello"` and `"World"`; and in a full batch run those
two utterances, in that order, are exactly what is sent to synthesis —
blank and whitespace-only lines produce no synthesis call and no output
file. -/
theorem batch_lines_spec :
    (∀ t : String, batchLines t
        = ((pySplitlines t).filter (fun l => strip l != "")).map strip) ∧
    batchLines "\n  \nHello\nWorld\n" = ["Hello", "World"] ∧
    (∀ (env : Env) (ra tf od model : String) (sp : ℚ) (rt : String) (nfe : Int) (cfg : ℚ),
      env.readText tf = "\n  \nHello\nWorld\n" →
      (∀ a, env.infer a ≠ none) →
      (inferPairs (clone_voice_batch env ra tf od model sp rt nfe cfg).2).map Prod.fst
        = ["Hello", "World"]) := by
  refine ⟨?_, by decide, ?_⟩
  · intro t
    simpa [Function.comp] using
      @List.filter_map String String (fun l => l != "") strip (pySplitlines t)
  · intro env ra tf od model sp rt nfe cfg hread hinf
    have hlines : batchLines (env.readText tf) = ["Hello", "World"] := by
      rw [hread]
      decide
    have hne : batchLines (env.readText tf) ≠ [] := by
      rw [hlines]
      simp
    have hpair := clone_voice_batch_eq env ra tf od model sp rt nfe cfg hne
    rw [hpair, hlines]
    cases hI1 : env.infer ⟨ra, rt, "Hello", pyJoin (abspath env.cwd od) (clipName 1),
        sp, nfe, cfg⟩ with
    | none => exact absurd hI1 (hinf _)
    | some r1 =>
      cases hI2 : env.infer ⟨ra, rt, "World", pyJoin (abspath env.cwd od) (clipName 2),
          sp, nfe, cfg⟩ with
      | none => exact absurd hI2 (hinf _)
      | some r2 =>
        simp [batchLoop, hI1, hI2, inferPairs]

/-- C4, witness: the example batch run sends exactly `"Hello"` then
`"World"` to synthesis. -/
theorem batch_lines_spec_witness :
    (inferPairs (clone_voice_batch ⟨fun _ => true, "/w", fun _ => "\n  \nHello\nWorld\n",
          fun _ => some ⟨10, 5⟩⟩
        "ref.wav" "script.txt" "outputs" "F5TTS_v1_Base" 1 "" 32 2).2).map Prod.fst
      = ["Hello", "World"] :=
  batch_lines_spec.2.2 ⟨fun _ => true, "/w", fun _ => "\n  \nHello\nWorld\n", fun _ => some ⟨10, 5⟩⟩
    "ref.wav" "script.txt" "outputs" "F5TTS_v1_Base" 1 "" 32 2 rfl
    (fun _ h => Option.noConfusion h)

/-! ### Claim C5 -/

/-- C5: a batch invocation with at least one non-blank line loads the model
exactly once — the trace is `mkdirs`, then a single `modelLoad` (handle 0),
then loop events none of which is a model load — and every per-line
`inferCall` uses handle 0, the handle created by that single load. -/
theorem model_loaded_once (env : Env) (ra tf od model : String) (sp : ℚ) (rt : String)
    (nfe : Int) (cfg : ℚ) (hne : batchLines (env.readText tf) ≠ []) :
    ∃ evs,
      (clone_voice_batch env ra tf od model sp rt nfe cfg).2
        = Event.mkdirs (abspath env.cwd od) :: Event.modelLoad 0 model :: evs ∧
      (∀ e ∈ evs, isModelLoad e = false) ∧
      (∀ (h : Nat) (args : InferArgs), Event.inferCall h args ∈ evs → h = 0) := by
  refine ⟨(batchLoop env ra rt sp nfe cfg (abspath env.cwd od) 1
    (batchLines (env.readText tf))).2, ?_, ?_, ?_⟩
  · rw [clone_voice_batch_eq env ra tf od model sp rt nfe cfg hne]
  · intro e he
    rcases batchLoop_events env ra rt sp nfe cfg (abspath env.cwd od)
      (batchLines (env.readText tf)) 1 e he with ⟨a2, rfl, _⟩ | ⟨p, rfl⟩ <;> rfl
  · intro h args hm
    rcases batchLoop_events env ra rt sp nfe cfg (abspath env.cwd od)
      (batchLines (env.readText tf)) 1 _ hm with ⟨a2, heq, _⟩ | ⟨p, heq⟩
    · cases heq
      rfl
    · cases heq

/-- C5, witness at a concrete two-line batch. -/
theorem model_loaded_once_witness :
    ∃ evs,
      (clone_voice_batch ⟨fun _ => true, "/w", fun _ => "Hello\nWorld", fun _ => some ⟨10, 5⟩⟩
          "ref.wav" "script.txt" "outputs" "F5TTS_v1_Base" 1 "" 32 2).2
        = Event.mkdirs (abspath "/w" "outputs") :: Event.modelLoad 0 "F5TTS_v1_Base" :: evs ∧
      (∀ e ∈ evs, isModelLoad e = false) ∧
      (∀ (h : Nat) (args : InferArgs), Event.inferCall h args ∈ evs → h = 0) :=
  model_loaded_once ⟨fun _ => true, "/w", fun _ => "Hello\nWorld", fun _ => some ⟨10, 5⟩⟩
    "ref.wav" "script.txt" "outputs" "F5TTS_v1_Base" 1 "" 32 2 (by decide)

/-! ### Claim C7 -/

/-- C7, counterexample to the claim as stated: `os.path.abspath` normalises,
so the already-absolute (but non-normal) path `/a/../b` is not returned
unchanged — it resolves to `/b`. -/
theorem abspath_not_identity_on_absolute :
    isAbs "/a/../b" = true ∧ abspath "/w" "/a/../b" ≠ "/a/../b" := by
  decide

/-- C7 (amended): resolving an already-absolute path returns it unchanged
provided it is already in normal form (in particular resolution is
idempotent, since `abspath` output is normalised); and in both single and
batch mode the path handed to the synthesis call is the one resolved once,
up front — `clone_voice` always passes exactly `abspath cwd output_path` as
`file_wave`, and every batch `inferCall` targets a clip name joined to the
once-resolved absolute output directory — so the written path cannot depend
on working-directory changes after that point. -/
theorem output_path_resolution :
    (∀ cwd p, isAbs p = true → normpath p = p → abspath cwd p = p) ∧
    (∀ (env : Env) (ra gt out model : String) (sp : ℚ) (rt : String) (nfe : Int) (cfg : ℚ)
        (h : Nat) (args : InferArgs),
      Event.inferCall h args ∈ (clone_voice env ra gt out model sp rt nfe cfg).2 →
      args.file_wave = abspath env.cwd out) ∧
    (∀ (env : Env) (ra tf od model : String) (sp : ℚ) (rt : String) (nfe : Int) (cfg : ℚ)
        (h : Nat) (args : InferArgs),
      Event.inferCall h args ∈ (clone_voice_batch env ra tf od model sp rt nfe cfg).2 →
      ∃ m, args.file_wave = pyJoin (abspath env.cwd od) (clipName m)) := by
  refine ⟨?_, ?_, ?_⟩
  · intro cwd p h1 h2
    simp [abspath, h1, h2]
  · intro env ra gt out model sp rt nfe cfg h args hm
    by_cases hfs : env.fsExists ra = false
    · simp [clone_voice, hfs] at hm
    · cases hinf : env.infer ⟨ra, rt, gt, abspath env.cwd out, sp, nfe, cfg⟩ with
      | none =>
        simp [clone_voice, hfs, hinf] at hm
        rcases hm with ⟨h0, rfl⟩
        rfl
      | some res =>
        simp [clone_voice, hfs, hinf] at hm
        rcases hm with ⟨h0, rfl⟩
        rfl
  · intro env ra tf od model sp rt nfe cfg h args hm
    by_cases hne : batchLines (env.readText tf) = []
    · simp [clone_voice_batch, hne] at hm
    · rw [clone_voice_batch_eq env ra tf od model sp rt nfe cfg hne] at hm
      simp at hm
      rcases batchLoop_events env ra rt sp nfe cfg (abspath env.cwd od)
        (batchLines (env.readText tf)) 1 _ hm with ⟨a2, heq, _, _, m, hfw⟩ | ⟨p, heq⟩
      · cases heq
        exact ⟨m, hfw⟩
      · cases heq

/-- C7, witness: a normalised absolute path is returned unchanged, and a
concrete single-mode `inferCall` carries the once-resolved absolute output
path. -/
theorem output_path_resolution_witness :
    isAbs "/b.wav" = true ∧ normpath "/b.wav" = "/b.wav" ∧
    abspath "/home" "/b.wav" = "/b.wav" ∧
    Event.inferCall 0 ⟨"ref.wav", "", "Hello", abspath "/w" "out.wav", 1, 32, 2⟩
      ∈ (clone_voice ⟨fun _ => true, "/w", fun _ => "", fun _ => some ⟨10, 5⟩⟩
          "ref.wav" "Hello" "out.wav" "F5TTS_v1_Base" 1 "" 32 2).2 ∧
    (⟨"ref.wav", "", "Hello", abspath "/w" "out.wav", 1, 32, 2⟩ : InferArgs).file_wave
      = abspath "/w" "out.wav" :=
  ⟨by decide, by decide,
   output_path_resolution.1 "/home" "/b.wav" (by decide) (by decide),
   by decide,
   output_path_resolution.2.1 ⟨fun _ => true, "/w", fun _ => "", fun _ => some ⟨10, 5⟩⟩
     "ref.wav" "Hello" "out.wav" "F5TTS_v1_Base" 1 "" 32 2 0
     ⟨"ref.wav", "", "Hello", abspath "/w" "out.wav", 1, 32, 2⟩ (by decide)⟩

/-! ### Claim C6 -/

/-- C6: the duration computed for a synthesis result is 0 when the returned
sample rate is 0 (the guarded branch, no division), and equals
`waveform_length / sample_rate` when the sample rate is positive; and
`clone_voice` returns exactly this guarded duration for the result the
service produced. -/
theorem duration_zero_guard :
    (∀ (len : Nat) (sr : Int), sr = 0 → durationOf len sr = 0) ∧
    (∀ (len : Nat) (sr : Int), 0 < sr → durationOf len sr = (len : ℚ) / (sr : ℚ)) ∧
    (∀ (env : Env) (ra gt out model : String) (sp : ℚ) (rt : String) (nfe : Int) (cfg : ℚ)
        (res : InferRes),
      env.fsExists ra = true →
      env.infer ⟨ra, rt, gt, abspath env.cwd out, sp, nfe, cfg⟩ = some res →
      (clone_voice env ra gt out model sp rt nfe cfg).1
        = Except.ok ⟨abspath env.cwd out, durationOf res.wavLen res.sr⟩) := by
  refine ⟨?_, ?_, ?_⟩
  · intro len sr h
    subst h
    simp [durationOf]
  · intro len sr h
    simp [durationOf, h]
  · intro env ra gt out model sp rt nfe cfg res hfs hinf
    simp [clone_voice, hfs, hinf]

/-- C6, witness: concrete zero and positive sample rates, and a concrete
single-mode run. -/
theorem duration_zero_guard_witness :
    durationOf 5 0 = 0 ∧
    durationOf 48000 24000 = (48000 : ℚ) / (24000 : ℚ) ∧
    (clone_voice ⟨fun _ => true, "/w", fun _ => "", fun _ => some ⟨48000, 24000⟩⟩
        "ref.wav" "Hello" "out.wav" "F5TTS_v1_Base" 1 "" 32 2).1
      = Except.ok ⟨abspath "/w" "out.wav", durationOf 48000 24000⟩ :=
  ⟨duration_zero_guard.1 5 0 rfl,
   duration_zero_guard.2.1 48000 24000 (by norm_num),
   duration_zero_guard.2.2 ⟨fun _ => true, "/w", fun _ => "", fun _ => some ⟨48000, 24000⟩⟩
     "ref.wav" "Hello" "out.wav" "F5TTS_v1_Base" 1 "" 32 2 ⟨48000, 24000⟩ rfl rfl⟩

/-! ### Claim C8 -/

/-- C8: when neither a (non-empty) direct text string nor a (non-empty)
text-file path is supplied, the run terminates via the parser usage error
with exit status 2 (≠ 0) and an empty trace (no synthesis); when a text-file
path is supplied, dispatch goes to `clone_voice_batch`; otherwise dispatch
goes to `clone_voice`.  "Supplied" is formalised as Python truthiness
(`None` and `""` are both absent), matching the code's `if not args.text and
not args.text_file` / `if args.text_file` tests and claim C10. -/
theorem cli_dispatch (env : Env) (a : Args) :
    (truthy a.text = false → truthy a.text_file = false →
      main env a = (2, []) ∧ (2 : Nat) ≠ 0) ∧
    (truthy a.text_file = true →
      main env a
        = (exitCode (clone_voice_batch env a.ref_audio (a.text_file.getD "") a.output_dir
             a.model a.speed a.ref_text a.nfe_step a.cfg_strength).1,
           (clone_voice_batch env a.ref_audio (a.text_file.getD "") a.output_dir
             a.model a.speed a.ref_text a.nfe_step a.cfg_strength).2)) ∧
    (truthy a.text_file = false → truthy a.text = true →
      main env a
        = (exitCode (clone_voice env a.ref_audio (a.text.getD "") a.output
             a.model a.speed a.ref_text a.nfe_step a.cfg_strength).1,
           (clone_voice env a.ref_audio (a.text.getD "") a.output
             a.model a.speed a.ref_text a.nfe_step a.cfg_strength).2)) := by
  refine ⟨?_, ?_, ?_⟩
  · intro h1 h2
    exact ⟨by simp [main, h1, h2], by decide⟩
  · intro h1
    simp [main, h1]
  · intro h1 h2
    simp [main, h1, h2]

/-- C8, witness: the three dispatch outcomes at concrete arguments. -/
theorem cli_dispatch_witness :
    main ⟨fun _ => true, "/w", fun _ => "Hi", fun _ => none⟩
        ⟨"ref.wav", none, none, "", "output.wav", "outputs", "F5TTS_v1_Base", 1, 32, 2⟩
      = (2, []) ∧
    main ⟨fun _ => true, "/w", fun _ => "Hi", fun _ => none⟩
        ⟨"ref.wav", none, some "s.txt", "", "output.wav", "outputs", "F5TTS_v1_Base", 1, 32, 2⟩
      = (exitCode (clone_voice_batch ⟨fun _ => true, "/w", fun _ => "Hi", fun _ => none⟩
           "ref.wav" "s.txt" "outputs" "F5TTS_v1_Base" 1 "" 32 2).1,
         (clone_voice_batch ⟨fun _ => true, "/w", fun _ => "Hi", fun _ => none⟩
           "ref.wav" "s.txt" "outputs" "F5TTS_v1_Base" 1 "" 32 2).2) ∧
    main ⟨fun _ => true, "/w", fun _ => "Hi", fun _ => none⟩
        ⟨"ref.wav", some "Hello", none, "", "output.wav", "outputs", "F5TTS_v1_Base", 1, 32, 2⟩
      = (exitCode (clone_voice ⟨fun _ => true, "/w", fun _ => "Hi", fun _ => none⟩
           "ref.wav" "Hello" "output.wav" "F5TTS_v1_Base" 1 "" 32 2).1,
         (clone_voice ⟨fun _ => true, "/w", fun _ => "Hi", fun _ => none⟩
           "ref.wav" "Hello" "output.wav" "F5TTS_v1_Base" 1 "" 32 2).2) :=
  ⟨((cli_dispatch ⟨fun _ => true, "/w", fun _ => "Hi", fun _ => none⟩
      ⟨"ref.wav", none, none, "", "output.wav", "outputs", "F5TTS_v1_Base", 1, 32, 2⟩).1
      rfl rfl).1,
   (cli_dispatch ⟨fun _ => true, "/w", fun _ => "Hi", fun _ => none⟩
      ⟨"ref.wav", none, some "s.txt", "", "output.wav", "outputs", "F5TTS_v1_Base", 1, 32, 2⟩).2.1
      (by decide),
   (cli_dispatch ⟨fun _ => true, "/w", fun _ => "Hi", fun _ => none⟩
      ⟨"ref.wav", some "Hello", none, "", "output.wav", "outputs", "F5TTS_v1_Base", 1, 32, 2⟩).2.2
      rfl (by decide)⟩

/-! ### Claim C9 -/

/-- C9: a non-empty manual reference transcript is passed through unchanged
to every external synthesis call, in both single and batch mode: every
`inferCall` event carries exactly the user-supplied `ref_text`. -/
theorem transcript_passthrough (env : Env) (ra gt out od tf model : String) (sp : ℚ)
    (rt : String) (_hrt : rt ≠ "") (nfe : Int) (cfg : ℚ) :
    (∀ (h : Nat) (args : InferArgs),
      Event.inferCall h args ∈ (clone_voice env ra gt out model sp rt nfe cfg).2 →
      args.ref_text = rt) ∧
    (∀ (h : Nat) (args : InferArgs),
      Event.inferCall h args ∈ (clone_voice_batch env ra tf od model sp rt nfe cfg).2 →
      args.ref_text = rt) := by
  constructor
  · intro h args hm
    by_cases hfs : env.fsExists ra = false
    · simp [clone_voice, hfs] at hm
    · cases hinf : env.infer ⟨ra, rt, gt, abspath env.cwd out, sp, nfe, cfg⟩ with
      | none =>
        simp [clone_voice, hfs, hinf] at hm
        rcases hm with ⟨h0, rfl⟩
        rfl
      | some res =>
        simp [clone_voice, hfs, hinf] at hm
        rcases hm with ⟨h0, rfl⟩
        rfl
  · intro h args hm
    by_cases hne : batchLines (env.readText tf) = []
    · simp [clone_voice_batch, hne] at hm
    · rw [clone_voice_batch_eq env ra tf od model sp rt nfe cfg hne] at hm
      simp at hm
      rcases batchLoop_events env ra rt sp nfe cfg (abspath env.cwd od) _ 1 _ hm with
        ⟨a2, heq, _, hrt2, _⟩ | ⟨p, heq⟩
      · cases heq
        exact hrt2
      · cases heq

/-- C9, witness: a concrete single-mode run whose `inferCall` event carries
the manual transcript unchanged. -/
theorem transcript_passthrough_witness :
    Event.inferCall 0
        ⟨"ref.wav", "manual transcript", "Hello", abspath "/w" "out.wav", 1, 32, 2⟩
      ∈ (clone_voice ⟨fun _ => true, "/w", fun _ => "", fun _ => some ⟨10, 5⟩⟩
          "ref.wav" "Hello" "out.wav" "F5TTS_v1_Base" 1 "manual transcript" 32 2).2 ∧
    (⟨"ref.wav", "manual transcript", "Hello", abspath "/w" "out.wav", 1, 32, 2⟩
        : InferArgs).ref_text = "manual transcript" :=
  ⟨by decide,
   (transcript_passthrough ⟨fun _ => true, "/w", fun _ => "", fun _ => some ⟨10, 5⟩⟩
      "ref.wav" "Hello" "out.wav" "outs" "t.txt" "F5TTS_v1_Base" 1
      "manual transcript" (by decide) 32 2).1 0
      ⟨"ref.wav", "manual transcript", "Hello", abspath "/w" "out.wav", 1, 32, 2⟩
      (by decide)⟩

/-! ### Claim C10 -/

/-- C10: a CLI invocation whose direct text argument is the empty string,
with no text-file path, is rejected exactly as if the text argument were
absent: exit status 2 (≠ 0), empty trace (no synthesis), and the same
outcome as the `None` case — so single-mode synthesis is never entered with
empty generation text. -/
theorem empty_text_rejected (env : Env) (a : Args) (ht : a.text = some "")
    (htf : a.text_file = none) :
    main env a = (2, []) ∧ main env a = main env { a with text := none } := by
  constructor <;> simp [main, truthy, ht, htf]

/-- C10, witness at a concrete empty-text invocation. -/
theorem empty_text_rejected_witness :
    main ⟨fun _ => true, "/w", fun _ => "Hi", fun _ => none⟩
        ⟨"ref.wav", some "", none, "", "output.wav", "outputs", "F5TTS_v1_Base", 1, 32, 2⟩
      = (2, []) ∧
    main ⟨fun _ => true, "/w", fun _ => "Hi", fun _ => none⟩
        ⟨"ref.wav", some "", none, "", "output.wav", "outputs", "F5TTS_v1_Base", 1, 32, 2⟩
      = main ⟨fun _ => true, "/w", fun _ => "Hi", fun _ => none⟩
          { (⟨"ref.wav", some "", none, "", "output.wav", "outputs", "F5TTS_v1_Base", 1, 32, 2⟩
              : Args) with text := none } :=
  empty_text_rejected ⟨fun _ => true, "/w", fun _ => "Hi", fun _ => none⟩
    ⟨"ref.wav", some "", none, "", "output.wav", "outputs", "F5TTS_v1_Base", 1, 32, 2⟩
    rfl rfl

end VoiceClone
